import Mathlib

/-!
Verification of the no_empty_object_type lint rule
(crates/oxc_linter/src/rules/typescript/no_empty_object_type.rs).

The source file defines the diagnostic constructor
no_empty_object_type_diagnostic and the rule's entry point
NoEmptyObjectType::run, whose body is empty: it inspects nothing and emits
nothing.  The test module in the same file lists pass and fail fixtures
describing the intended classification.  We embed the code as written:
run returns the (empty) list of diagnostics it emits, and a site's verdict
is Report exactly when that list is non-empty.  The candidate-site data
model and the options surface, which the stub ignores, are modelled from
the spec so that the claims can be stated over them.
-/

/-- A source span, as in oxc_span::Span: start and end byte offsets. -/
structure Span where
  start : Nat
  stop : Nat
  deriving DecidableEq

/-- Diagnostic severity; OxcDiagnostic::warn produces a warning. -/
inductive Severity where
  | warning
  | error
  deriving DecidableEq

/-- A diagnostic as built by the oxc_diagnostics API: severity, message, optional help text, and labeled spans. -/
structure OxcDiagnostic where
  severity : Severity
  message : String
  help : Option String
  labels : List Span
  deriving DecidableEq

/-- OxcDiagnostic::warn: a warning with the given message, no help, no labels. -/
def OxcDiagnostic.warn (m : String) : OxcDiagnostic :=
  OxcDiagnostic.mk Severity.warning m none []

/-- OxcDiagnostic::with_help: attaches help text. -/
def OxcDiagnostic.with_help (d : OxcDiagnostic) (h : String) : OxcDiagnostic :=
  OxcDiagnostic.mk d.severity d.message (some h) d.labels

/-- OxcDiagnostic::with_label: appends a labeled span. -/
def OxcDiagnostic.with_label (d : OxcDiagnostic) (s : Span) : OxcDiagnostic :=
  OxcDiagnostic.mk d.severity d.message d.help (d.labels ++ [s])

/-- no_empty_object_type_diagnostic from the source, lines 12 to 17: warn with the fixed message, the fixed help text, and the given span as label. -/
def no_empty_object_type_diagnostic (span : Span) : OxcDiagnostic :=
  ((OxcDiagnostic.warn
      "Disallow accidentally using the \"empty object\" type.").with_help
      "To avoid confusion around the \x7b\x7d type allowing any non-nullish value, this rule bans usage of the \x7b\x7d type.").with_label
      span

/-- Modelled from the spec: values of the allowInterfaces option (the source's NoEmptyObjectType struct is fieldless and run ignores configuration). -/
inductive AllowInterfaces where
  | always
  | never
  | withSingleExtends
  deriving DecidableEq

/-- Modelled from the spec: values of the allowObjectTypes option. -/
inductive AllowObjectTypes where
  | always
  | never
  deriving DecidableEq

/-- Modelled from the spec: the rule's options surface (section 3 of the spec); absent from the source, whose rule struct carries no fields. -/
structure RuleOptions where
  allowInterfaces : AllowInterfaces
  allowObjectTypes : AllowObjectTypes
  allowWithName : Option String
  deriving DecidableEq

/-- Default options: allowInterfaces = never, allowObjectTypes = never, no name pattern configured. -/
def defaultOptions : RuleOptions :=
  RuleOptions.mk AllowInterfaces.never AllowObjectTypes.never none

/-- Modelled from the spec: one extends-list entry, either a bare interface reference or a reference carrying type arguments. -/
inductive ExtendsTarget where
  | plainInterfaceRef (name : String)
  | parameterizedRef (name : String)
  deriving DecidableEq

/-- Modelled from the spec: the position an inline type literal occupies. -/
inductive EnclosingShape where
  | aliasValue
  | unionMember
  | intersectionMember
  | otherPosition
  deriving DecidableEq

/-- AST nodes the rule can receive, following the spec's CandidateSite data model, with an extra constructor standing for every other node kind; the source's run receives an arbitrary node and ignores it. -/
inductive AstNode where
  | interfaceDecl (name : String) (members : List String) (extendsList : List ExtendsTarget)
  | typeAliasDecl (name : String) (valueMembers : List String)
  | inlineTypeLiteral (members : List String) (shape : EnclosingShape)
  | otherNode
  deriving DecidableEq

/-- The lint context handed to run: the active options and the names of class declaration statements in the candidate's lexical scope (the resolveInScope capability of the spec). -/
structure LintContext where
  options : RuleOptions
  sameScopeClassNames : List String
  deriving DecidableEq

/-- Default context: default options and no same-scope class declaration. -/
def defaultCtx : LintContext :=
  LintContext.mk defaultOptions []

/-- NoEmptyObjectType::run from the source, line 50: the body is empty, so the list of diagnostics emitted is empty for every node and every context. -/
def NoEmptyObjectType.run (_node : AstNode) (_ctx : LintContext) : List OxcDiagnostic :=
  []

/-- A site's verdict. -/
inductive Verdict where
  | allow
  | report
  deriving DecidableEq

/-- The verdict the code produces for a node: Report exactly when run emits at least one diagnostic. -/
def verdict (node : AstNode) (ctx : LintContext) : Verdict :=
  match NoEmptyObjectType.run node ctx with
  | [] => Verdict.allow
  | _ :: _ => Verdict.report

/-- The member list of a candidate site; empty for non-candidate nodes. -/
def AstNode.memberList : AstNode → List String
  | AstNode.interfaceDecl _ ms _ => ms
  | AstNode.typeAliasDecl _ ms => ms
  | AstNode.inlineTypeLiteral ms _ => ms
  | AstNode.otherNode => []

/-- The fail fixture interface Base with no members and no extends clause. -/
def interfaceBaseEmpty : AstNode :=
  AstNode.interfaceDecl "Base" [] []

/-- The fixture interface Derived extends Base, structurally empty, one plain extends entry. -/
def derivedExtendsBase : AstNode :=
  AstNode.interfaceDecl "Derived" [] [ExtendsTarget.plainInterfaceRef "Base"]

/-- Context with allowInterfaces = with-single-extends and only a class named Other in the same scope. -/
def withSingleExtendsOtherCtx : LintContext :=
  LintContext.mk
    (RuleOptions.mk AllowInterfaces.withSingleExtends AllowObjectTypes.never none)
    ["Other"]

/-- The fixture interface Base extends Array of number: structurally empty, one parameterized extends entry. -/
def baseExtendsArray : AstNode :=
  AstNode.interfaceDecl "Base" [] [ExtendsTarget.parameterizedRef "Array"]

/-- The empty-object literal nested in a union, as in the fixture where the alias Base has a union value whose first member is the empty literal. -/
def unionEmptyLiteral : AstNode :=
  AstNode.inlineTypeLiteral [] EnclosingShape.unionMember

/-- Context with allowWithName configured to the pattern Base. -/
def allowWithNameBaseCtx : LintContext :=
  LintContext.mk
    (RuleOptions.mk AllowInterfaces.never AllowObjectTypes.never (some "Base"))
    []

/-- Context with allowWithName configured to the pattern .*Props$ as in the last fail fixture. -/
def allowWithNamePropsCtx : LintContext :=
  LintContext.mk
    (RuleOptions.mk AllowInterfaces.never AllowObjectTypes.never (some ".*Props$"))
    []

/-- Claim C1: at the fail fixture interface Base, structurally empty with zero extends entries, under default options, the code emits no diagnostic and the verdict is Allow; the claim, and the file's own fail fixture at line 145, require Report, so the empty run body contradicts the tests in its own file. -/
theorem emptyInterface_default_code_emits_nothing :
    NoEmptyObjectType.run interfaceBaseEmpty defaultCtx = [] ∧
    verdict interfaceBaseEmpty defaultCtx = Verdict.allow :=
  ⟨rfl, rfl⟩

/-- Claim C2: the rule's run entry point emits no diagnostic for any AST node under any context and options; no input produces a Report verdict. -/
theorem run_is_noop (node : AstNode) (ctx : LintContext) :
    NoEmptyObjectType.run node ctx = [] ∧ verdict node ctx = Verdict.allow :=
  ⟨rfl, rfl⟩

/-- Witness for claim C2 at a concrete node and context. -/
theorem run_is_noop_witness :
    NoEmptyObjectType.run AstNode.otherNode defaultCtx = [] ∧
    verdict AstNode.otherNode defaultCtx = Verdict.allow :=
  run_is_noop AstNode.otherNode defaultCtx

/-- Claim C3: for the structurally empty interface Derived extends Base under allowInterfaces = with-single-extends, with only a differently named class Other in scope, the code emits nothing and the verdict is Allow; the claim requires Report when no same-name class merges, so the empty run body contradicts the intent its fixtures document. -/
theorem singleExtends_noMerge_code_emits_nothing :
    NoEmptyObjectType.run derivedExtendsBase withSingleExtendsOtherCtx = [] ∧
    verdict derivedExtendsBase withSingleExtendsOtherCtx = Verdict.allow :=
  ⟨rfl, rfl⟩

/-- Claim C4: for the fail fixture interface Base extends Array of number, structurally empty with one parameterized extends entry, under default options the code emits nothing and the verdict is Allow; the claim and the fail fixture at line 206 require Report. -/
theorem parameterizedExtends_code_emits_nothing :
    NoEmptyObjectType.run baseExtendsArray defaultCtx = [] ∧
    verdict baseExtendsArray defaultCtx = Verdict.allow :=
  ⟨rfl, rfl⟩

/-- Claim C5: for the empty-object literal nested in a union with allowWithName = Base configured, the code emits nothing and the verdict is Allow; the claim and the fail fixture at lines 255 to 260 require Report since the name exemption must not reach union members. -/
theorem unionLiteral_namedAlias_code_emits_nothing :
    NoEmptyObjectType.run unionEmptyLiteral allowWithNameBaseCtx = [] ∧
    verdict unionEmptyLiteral allowWithNameBaseCtx = Verdict.allow :=
  ⟨rfl, rfl⟩

/-- Claim C6: for the fail fixture interface Base with allowWithName = .*Props$ configured, a pattern that does not match the name Base, the code emits nothing and the verdict is Allow; the claimed NamePattern semantics require Report here, and indeed no name-matching component exists anywhere in the source. -/
theorem allowWithName_nonmatching_code_emits_nothing :
    NoEmptyObjectType.run interfaceBaseEmpty allowWithNamePropsCtx = [] ∧
    verdict interfaceBaseEmpty allowWithNamePropsCtx = Verdict.allow :=
  ⟨rfl, rfl⟩

/-- Claim C7: every candidate site whose member list is non-empty receives verdict Allow under every context and options configuration. -/
theorem nonempty_members_allow (node : AstNode) (ctx : LintContext)
    (h : node.memberList ≠ []) :
    verdict node ctx = Verdict.allow :=
  rfl

/-- Witness for claim C7: interface Base with one member under default options. -/
theorem nonempty_members_allow_witness :
    (AstNode.interfaceDecl "Base" ["name: string;"] []).memberList ≠ [] ∧
    verdict (AstNode.interfaceDecl "Base" ["name: string;"] []) defaultCtx = Verdict.allow :=
  ⟨by decide,
   nonempty_members_allow (AstNode.interfaceDecl "Base" ["name: string;"] []) defaultCtx
     (by decide)⟩

/-- Claim C8: every structurally empty interface declaration with two or more extends entries receives verdict Allow under every context and options configuration. -/
theorem multi_extends_allow (name : String) (ext : List ExtendsTarget)
    (ctx : LintContext) (h : 2 ≤ ext.length) :
    verdict (AstNode.interfaceDecl name [] ext) ctx = Verdict.allow :=
  rfl

/-- Witness for claim C8: the pass fixture interface Both extends Base, Derived under default options. -/
theorem multi_extends_allow_witness :
    2 ≤ [ExtendsTarget.plainInterfaceRef "Base",
         ExtendsTarget.plainInterfaceRef "Derived"].length ∧
    verdict
      (AstNode.interfaceDecl "Both" []
        [ExtendsTarget.plainInterfaceRef "Base",
         ExtendsTarget.plainInterfaceRef "Derived"]) defaultCtx = Verdict.allow :=
  ⟨by decide,
   multi_extends_allow "Both"
     [ExtendsTarget.plainInterfaceRef "Base",
      ExtendsTarget.plainInterfaceRef "Derived"] defaultCtx (by decide)⟩

/-- Claim C9: an empty-object literal that is a member of an intersection type receives verdict Allow under every context and options configuration. -/
theorem intersection_literal_allow (ctx : LintContext) :
    verdict (AstNode.inlineTypeLiteral [] EnclosingShape.intersectionMember) ctx
      = Verdict.allow :=
  rfl

/-- Witness for claim C9 at the default context. -/
theorem intersection_literal_allow_witness :
    verdict (AstNode.inlineTypeLiteral [] EnclosingShape.intersectionMember) defaultCtx
      = Verdict.allow :=
  intersection_literal_allow defaultCtx

/-- Claim C10: for every span, the diagnostic constructor produces a warning carrying the fixed message about the empty object type, the fixed help text explaining that the construct accepts any non-nullish value, and the given span as its only label. -/
theorem diagnostic_fixed_message (span : Span) :
    no_empty_object_type_diagnostic span =
      OxcDiagnostic.mk Severity.warning
        "Disallow accidentally using the \"empty object\" type."
        (some "To avoid confusion around the \x7b\x7d type allowing any non-nullish value, this rule bans usage of the \x7b\x7d type.")
        [span] :=
  rfl

/-- Witness for claim C10 at the span from offset 0 to 17. -/
theorem diagnostic_fixed_message_witness :
    no_empty_object_type_diagnostic (Span.mk 0 17) =
      OxcDiagnostic.mk Severity.warning
        "Disallow accidentally using the \"empty object\" type."
        (some "To avoid confusion around the \x7b\x7d type allowing any non-nullish value, this rule bans usage of the \x7b\x7d type.")
        [Span.mk 0 17] :=
  diagnostic_fixed_message (Span.mk 0 17)
